import Mathlib

/-!
Piston engine and propulsion of the C172 flight dynamics model.

Shallow embedding of `src/fdm/models/fdm_PistonEngine.cpp` and
`src/fdm_c172/c172_Propulsion.cpp`.

Number model.  A C++ `double` is embedded as an exact rational number (`ℚ`):
arithmetic is exact, there is no rounding, no overflow and no NaN or infinity.
A quotient whose divisor is zero has the value `0` (the convention of `ℚ`);
the only divisors the engine code can see as zero are the air density in
`getPowerFactor` and `rpm_max` in `getPowerLosses`, and in both places the
quotient is passed through a lookup table or a floor before it is used.

Lookup tables (`fdm::Table`) are not part of the sources at hand; a table is
embedded as an arbitrary function from the looked-up abscissa to the value.
-/

namespace fdm

/-- Engine state enumeration of the engine base class. -/
inductive EngineState where
  | Stopped
  | Starting
  | Running
  deriving DecidableEq, Repr

/-- The value of the `double` constant `M_PI` (`0x400921FB54442D18`), which is
the rational number `884279719003555 / 2 ^ 48`. -/
def M_PI : ℚ := 884279719003555 / 281474976710656

namespace Misc

/-- Modelled from the spec: `Misc::max` (its definition is not in the sources at
hand); the spec writes every use as `max(0, x)`, the greater of its two
arguments. -/
def max (v1 v2 : ℚ) : ℚ := if v1 > v2 then v1 else v2

/-- Modelled from the spec: `Misc::satur` (its definition is not in the sources
at hand); the spec says the factor is clamped, or saturated, to `[0,1]`: a value
below the lower bound gives the lower bound, a value above the upper bound gives
the upper bound, any other value is returned unchanged. -/
def satur (lo hi val : ℚ) : ℚ :=
  if val < lo then lo else if val > hi then hi else val

end Misc

/-- A one-dimensional lookup table (`fdm::Table`), taken as a parameter: only
its `getValue` is used by the engine. -/
structure Table where
  getValue : ℚ → ℚ

/-- The piston engine: parameters read from the configuration, followed by the
dynamic state written by `update`. -/
structure PistonEngine where
  /-- maximum power [W] -/
  power_max : ℚ
  /-- starter torque [N*m] -/
  starter : ℚ
  /-- minimum rpm -/
  rpm_min : ℚ
  /-- maximum rpm -/
  rpm_max : ℚ
  /-- specific fuel consumption [kg/(W*s)] -/
  specFuelCons : ℚ
  /-- polar moment of inertia [kg*m^2] -/
  inertia : ℚ
  /-- mixture lever position to mixture value -/
  mixture : Table
  /-- throttle lever position to throttle value -/
  throttle : Table
  /-- fuel to air ratio to power factor -/
  powerFactor : Table
  /-- engine state -/
  state : EngineState
  /-- engine rpm -/
  rpm : ℚ
  /-- manifold absolute pressure [Pa] -/
  map : ℚ
  /-- net power [W] -/
  power : ℚ
  /-- torque [N*m] -/
  torque : ℚ
  /-- fuel flow [kg/s] -/
  fuelFlow : ℚ

namespace PistonEngine

/-- Embedding of `PistonEngine::getManifoldAbsolutePressure`. -/
def getManifoldAbsolutePressure (throttle rpm airPressure : ℚ) : ℚ :=
  let map := airPressure + (156.9411 * throttle - 158.8034) * rpm
  Misc.max 0 map

/-- Embedding of `PistonEngine::getPowerFactor`. -/
def getPowerFactor (e : PistonEngine) (mixture airDensity : ℚ)
    (fuel magneto_l magneto_r : Bool) : ℚ :=
  let fuelToAirRatio := mixture * (1.225 / airDensity) * 0.1
  let powerFactor := e.powerFactor.getValue fuelToAirRatio
  let powerFactor :=
    if !fuel then 0
    else if !magneto_l && !magneto_r then 0
    else if (magneto_l && !magneto_r) || (!magneto_l && magneto_r) then powerFactor * 0.95
    else powerFactor
  Misc.satur 0 1 powerFactor

/-- Embedding of `PistonEngine::getPowerLosses`. -/
def getPowerLosses (e : PistonEngine) (rpm : ℚ) : ℚ :=
  let powerLosses := e.power_max * 2.58125e-4 * (rpm * rpm) / e.rpm_max
  Misc.max 0 powerLosses

/-- Embedding of `PistonEngine::getStaticPower`. -/
def getStaticPower (e : PistonEngine) (rpm map : ℚ) : ℚ :=
  let staticPower := e.power_max * map * (7.198759595625e-9 * rpm - 1.84583579375e-6)
  Misc.max 0 staticPower

/-- The engine torque expression of `PistonEngine::update`
(`( omega > 1.0 ) ? _power / omega : _power`), before the starter is added. -/
def engineTorque (power omega : ℚ) : ℚ :=
  if omega > 1 then power / omega else power

/-- Embedding of `PistonEngine::update`: the engine after the call. -/
def update (e : PistonEngine) (throttleLever mixtureLever rpm airPressure airDensity : ℚ)
    (fuel starter magneto_l magneto_r : Bool) : PistonEngine :=
  let omega := M_PI * rpm / 30
  let e := { e with rpm := rpm }
  let e := { e with
    map := getManifoldAbsolutePressure (e.throttle.getValue throttleLever) e.rpm airPressure }
  let powerFactor :=
    e.getPowerFactor (e.mixture.getValue mixtureLever) airDensity fuel magneto_l magneto_r
  let staticPower := e.getStaticPower e.rpm e.map
  let powerLosses := e.getPowerLosses e.rpm
  let termalPower := staticPower * powerFactor
  let termalPower := if e.rpm < e.rpm_min then 0 else termalPower
  let e := { e with power := termalPower - powerLosses }
  let e := { e with fuelFlow := Misc.max 0 e.power * e.specFuelCons }
  let e := { e with torque := engineTorque e.power omega }
  if e.power > 0 ∨ (e.rpm > e.rpm_min ∧ fuel ∧ (magneto_l ∨ magneto_r)) then
    { e with state := EngineState.Running }
  else
    let e := { e with state := EngineState.Stopped }
    if starter then
      { e with state := EngineState.Starting, torque := e.torque + e.starter }
    else e

end PistonEngine

end fdm

namespace fdm

/-! ## Propulsion of the C172 (`c172_Propulsion.cpp`) -/

/-- Modelled from the spec: `fdm::Vector3` (its definition is not in the sources
at hand), a vector of three components in body axes. -/
structure Vector3 where
  x : ℚ
  y : ℚ
  z : ℚ
  deriving DecidableEq, Repr

namespace Vector3

/-- Modelled from the spec: the default constructor `Vector3()` (not in the
sources at hand); the spec forms the angular rate vector from the propeller
angular speed alone, so the other components start as 0. -/
def zero : Vector3 := ⟨0, 0, 0⟩

/-- Modelled from the spec: `Vector3::operator^` (not in the sources at hand);
the spec calls it the cross product. -/
def cross (a b : Vector3) : Vector3 :=
  ⟨a.y * b.z - a.z * b.y, a.z * b.x - a.x * b.z, a.x * b.y - a.y * b.x⟩

/-- Modelled from the spec: `Vector3::operator+` and `operator+=` (not in the
sources at hand); the spec adds the gyroscopic moment to the thrust moment. -/
def add (a b : Vector3) : Vector3 := ⟨a.x + b.x, a.y + b.y, a.z + b.z⟩

/-- Modelled from the spec: the product of a number and a `Vector3` (not in the
sources at hand); the spec scales the vector by the sum of the inertias. -/
def scale (k : ℚ) (v : Vector3) : Vector3 := ⟨k * v.x, k * v.y, k * v.z⟩

end Vector3

/-- Propeller direction (`Propeller::Direction`), as viewed from the pilot. -/
inductive Direction where
  | CW
  | CCW
  deriving DecidableEq, Repr

/-- Exception types raised by the code at hand. -/
inductive ExceptionType where
  | FileReadingError
  | UnexpectedNaN
  deriving DecidableEq, Repr

/-- The propeller (`fdm::Propeller`) is an external collaborator whose sources
are not at hand: its state is an arbitrary type `P`, and the operations the
propulsion calls are taken as parameters. -/
structure PropellerOps (P : Type) where
  /-- Call `integrate( timeStep, engineInertia )`. -/
  integrate : P → ℚ → ℚ → P
  /-- Call `update( propellerLever, engineTorque, airspeed, airDensity )`. -/
  update : P → ℚ → ℚ → ℚ → ℚ → P
  /-- Call `computeThrust( airspeed, airDensity )`. -/
  computeThrust : P → ℚ → ℚ → P
  getEngineRPM : P → ℚ
  getThrust : P → ℚ
  getPos_BAS : P → Vector3
  getDirection : P → Direction
  getOmega : P → ℚ
  getInertia : P → ℚ

/-- Control inputs of engine 0 (`getDataInp()->engine[ 0 ]`). -/
structure EngineInput where
  throttle : ℚ
  mixture : ℚ
  propeller : ℚ
  fuel : Bool
  ignition : Bool
  starter : Bool

/-- The values the propulsion reads from the aircraft during one call
(`C172_Aircraft`, not in the sources at hand), taken as parameters. -/
structure C172_Aircraft where
  timeStep : ℚ
  airspeed : ℚ
  /-- Value of `getEnvir()->getPressure()`. -/
  pressure : ℚ
  /-- Value of `getEnvir()->getDensity()`. -/
  density : ℚ
  /-- Value of `getOmg_BAS()`. -/
  omg_bas : Vector3
  /-- Value of `getDataInp()->engine[ 0 ]`. -/
  engine0 : EngineInput

/-- The propulsion of the C172: one piston engine, one propeller, and the
resulting force and moment in body axes. -/
structure C172_Propulsion (P : Type) where
  engine : PistonEngine
  propeller : P
  for_bas : Vector3
  mom_bas : Vector3

namespace C172_Propulsion

/-- Embedding of `C172_Propulsion::computeForceAndMoment`: the propulsion after
the call, and the exception thrown, if any. The vectors are stored before the
validity test, so they are part of the state in both cases. `Vector3::isValid`
is not in the sources at hand and is taken as a parameter. -/
def computeForceAndMoment {P : Type} (ops : PropellerOps P) (isValid : Vector3 → Bool)
    (aircraft : C172_Aircraft) (s : C172_Propulsion P) :
    C172_Propulsion P × Option ExceptionType :=
  let s := { s with propeller := ops.computeThrust s.propeller aircraft.airspeed aircraft.density }
  let for_bas : Vector3 := ⟨ops.getThrust s.propeller, 0, 0⟩
  let mom_bas := (ops.getPos_BAS s.propeller).cross for_bas
  let omega_bas := Vector3.zero
  let omega_bas :=
    if ops.getDirection s.propeller = Direction.CW then
      { omega_bas with x := ops.getOmega s.propeller }
    else
      { omega_bas with x := -ops.getOmega s.propeller }
  let mom_bas := mom_bas.add
    (Vector3.scale (ops.getInertia s.propeller + s.engine.inertia)
      (omega_bas.cross aircraft.omg_bas))
  let s := { s with for_bas := for_bas }
  let s := { s with mom_bas := mom_bas }
  if !isValid s.for_bas || !isValid s.mom_bas then
    (s, some ExceptionType.UnexpectedNaN)
  else
    (s, none)

/-- Embedding of `C172_Propulsion::update`. -/
def update {P : Type} (ops : PropellerOps P) (aircraft : C172_Aircraft)
    (s : C172_Propulsion P) : C172_Propulsion P :=
  let s := { s with propeller := ops.integrate s.propeller aircraft.timeStep s.engine.inertia }
  let s := { s with
    engine := s.engine.update aircraft.engine0.throttle aircraft.engine0.mixture
      (ops.getEngineRPM s.propeller) aircraft.pressure aircraft.density
      aircraft.engine0.fuel aircraft.engine0.starter
      aircraft.engine0.ignition aircraft.engine0.ignition }
  { s with
    propeller := ops.update s.propeller aircraft.engine0.propeller s.engine.torque
      aircraft.airspeed aircraft.density }

end C172_Propulsion

/-- Modelled from the spec: `Vector3::isValid` (not in the sources at hand); the
spec asks that a vector be finite, that is each of its three components is.
Every number of the rational number model is finite, so the finiteness test of
one component is taken as a parameter, which keeps the failing path of
`computeForceAndMoment` reachable. -/
def Vector3.isValid (isFinite : ℚ → Bool) (v : Vector3) : Bool :=
  isFinite v.x && isFinite v.y && isFinite v.z

/-! ## Reading the engine data (`PistonEngine::readData`) -/

/-- The nine fields `readData` reads, in the order of the source. -/
inductive Field where
  | power_max
  | starter
  | rpm_min
  | rpm_max
  | sfc
  | inertia
  | mixture
  | throttle
  | power_factor
  deriving DecidableEq, Repr

/-- Result codes of `XmlUtils::read`. -/
inductive ResultCode where
  | FDM_SUCCESS
  | FDM_FAILURE
  deriving DecidableEq, Repr

/-- The XML data node (`XmlNode` and `XmlUtils::read`, not in the sources at
hand), taken as a parameter: whether the node is valid, and for each field what
reading it gives, `none` standing for a read that fails. -/
structure XmlNode where
  isValid : Bool
  /-- Reading a number. -/
  readDouble : Field → Option ℚ
  /-- Reading a table. -/
  readTable : Field → Option Table

/-- The engine, the local variable `result` and the reads attempted so far,
while `readData` runs. -/
structure ReadState where
  engine : PistonEngine
  result : ResultCode
  reads : List Field

/-- What `readData` leaves: the engine, the reads attempted in order, and the
exception thrown, if any. -/
structure ReadOutcome where
  engine : PistonEngine
  reads : List Field
  thrown : Option ExceptionType

namespace PistonEngine

/-- One line `if ( result == FDM_SUCCESS ) result = XmlUtils::read( ... )` of
`readData` for a number; a read that fails leaves the engine as it is. -/
def readDoubleStep (dataNode : XmlNode) (field : Field)
    (store : PistonEngine → ℚ → PistonEngine) (st : ReadState) : ReadState :=
  if st.result = ResultCode.FDM_SUCCESS then
    match dataNode.readDouble field with
    | some v =>
      { engine := store st.engine v, result := ResultCode.FDM_SUCCESS,
        reads := st.reads ++ [field] }
    | none =>
      { engine := st.engine, result := ResultCode.FDM_FAILURE, reads := st.reads ++ [field] }
  else st

/-- One line `if ( result == FDM_SUCCESS ) result = XmlUtils::read( ... )` of
`readData` for a table; a read that fails leaves the engine as it is. -/
def readTableStep (dataNode : XmlNode) (field : Field)
    (store : PistonEngine → Table → PistonEngine) (st : ReadState) : ReadState :=
  if st.result = ResultCode.FDM_SUCCESS then
    match dataNode.readTable field with
    | some v =>
      { engine := store st.engine v, result := ResultCode.FDM_SUCCESS,
        reads := st.reads ++ [field] }
    | none =>
      { engine := st.engine, result := ResultCode.FDM_FAILURE, reads := st.reads ++ [field] }
  else st

/-- Embedding of `PistonEngine::readData`. -/
def readData (e : PistonEngine) (dataNode : XmlNode) : ReadOutcome :=
  if dataNode.isValid then
    let st : ReadState := { engine := e, result := ResultCode.FDM_SUCCESS, reads := [] }
    let st := readDoubleStep dataNode Field.power_max (fun e v => { e with power_max := v }) st
    let st := readDoubleStep dataNode Field.starter (fun e v => { e with starter := v }) st
    let st := readDoubleStep dataNode Field.rpm_min (fun e v => { e with rpm_min := v }) st
    let st := readDoubleStep dataNode Field.rpm_max (fun e v => { e with rpm_max := v }) st
    let st := readDoubleStep dataNode Field.sfc (fun e v => { e with specFuelCons := v }) st
    let st := readDoubleStep dataNode Field.inertia (fun e v => { e with inertia := v }) st
    let st := readTableStep dataNode Field.mixture (fun e v => { e with mixture := v }) st
    let st := readTableStep dataNode Field.throttle (fun e v => { e with throttle := v }) st
    let st := readTableStep dataNode Field.power_factor
      (fun e v => { e with powerFactor := v }) st
    if st.result ≠ ResultCode.FDM_SUCCESS then
      { engine := st.engine, reads := st.reads, thrown := some ExceptionType.FileReadingError }
    else
      { engine := st.engine, reads := st.reads, thrown := none }
  else
    { engine := e, reads := [], thrown := some ExceptionType.FileReadingError }

end PistonEngine

end fdm

open fdm fdm.PistonEngine

/-! ## Definitions used to state the properties -/

/-- The condition under which `update` sets the state to `Running`
(`_power > 0.0 || ( _rpm > _rpm_min && fuel && ( magneto_l || magneto_r ) )`). -/
def runningCond (netPower rpm rpm_min : ℚ) (fuel magneto_l magneto_r : Bool) : Prop :=
  netPower > 0 ∨ (rpm > rpm_min ∧ fuel = true ∧ (magneto_l = true ∨ magneto_r = true))

instance (netPower rpm rpm_min : ℚ) (fuel magneto_l magneto_r : Bool) :
    Decidable (runningCond netPower rpm rpm_min fuel magneto_l magneto_r) := by
  unfold runningCond; infer_instance

/-- The engine state as the testable property of the spec words it: Running
whenever net power > 0; Starting whenever the starter is engaged, net power ≤ 0
and (rpm ≤ rpm_min or no fuel or both magnetos off); otherwise Stopped. -/
def specState (netPower rpm rpm_min : ℚ) (fuel starter magneto_l magneto_r : Bool) :
    EngineState :=
  if netPower > 0 then EngineState.Running
  else if starter = true ∧ netPower ≤ 0
      ∧ (rpm ≤ rpm_min ∨ fuel = false ∨ (magneto_l = false ∧ magneto_r = false)) then
    EngineState.Starting
  else EngineState.Stopped

/-- A table whose value is the same at every abscissa. -/
def constTable (c : ℚ) : Table := ⟨fun _ => c⟩

/-- An engine with the parameters of the spec's scenario (`power_max = 119310`,
`rpm_max = 2700`, `rpm_min = 600`, `sfc = 8.6e-8`), a starter torque of 40 N*m,
constant tables with the given values, and the dynamic state of a freshly
constructed engine. -/
def scenarioEngine (throttle mixture powerFactor : ℚ) : PistonEngine :=
  { power_max := 119310, starter := 40, rpm_min := 600, rpm_max := 2700,
    specFuelCons := 8.6e-8, inertia := 1,
    mixture := constTable mixture, throttle := constTable throttle,
    powerFactor := constTable powerFactor,
    state := EngineState.Stopped, rpm := 0, map := 0, power := 0, torque := 0, fuelFlow := 0 }

/-- The nine fields in the order in which `readData` reads them. -/
def fieldOrder : List Field :=
  [Field.power_max, Field.starter, Field.rpm_min, Field.rpm_max, Field.sfc, Field.inertia,
    Field.mixture, Field.throttle, Field.power_factor]

/-- Whether the read of a field succeeds on a data node: the three curves are
read as tables, the other six fields as numbers. -/
def readOk (dataNode : XmlNode) (field : Field) : Bool :=
  match field with
  | Field.mixture => (dataNode.readTable Field.mixture).isSome
  | Field.throttle => (dataNode.readTable Field.throttle).isSome
  | Field.power_factor => (dataNode.readTable Field.power_factor).isSome
  | f => (dataNode.readDouble f).isSome

/-! ## Shared lemmas -/

theorem Misc_max_zero_nonneg (x : ℚ) : 0 ≤ Misc.max 0 x := by
  unfold Misc.max
  split_ifs with h
  · exact le_refl 0
  · exact not_lt.mp h

theorem Misc_satur_unit_bounds (x : ℚ) : 0 ≤ Misc.satur 0 1 x ∧ Misc.satur 0 1 x ≤ 1 := by
  unfold Misc.satur
  split_ifs with h1 h2
  · exact ⟨le_refl 0, zero_le_one⟩
  · exact ⟨zero_le_one, le_refl 1⟩
  · exact ⟨not_lt.mp h1, not_lt.mp h2⟩

theorem getPowerLosses_nonneg (e : PistonEngine) (rpm : ℚ) : 0 ≤ e.getPowerLosses rpm :=
  Misc_max_zero_nonneg _

theorem getStaticPower_nonneg (e : PistonEngine) (rpm map : ℚ) : 0 ≤ e.getStaticPower rpm map :=
  Misc_max_zero_nonneg _

theorem getPowerFactor_no_fuel (e : PistonEngine) (mixture airDensity : ℚ)
    (magneto_l magneto_r : Bool) :
    e.getPowerFactor mixture airDensity false magneto_l magneto_r = 0 := by
  simp [getPowerFactor, Misc.satur]

section Fields

variable (e : PistonEngine) (throttleLever mixtureLever rpm airPressure airDensity : ℚ)
  (fuel starter magneto_l magneto_r : Bool)

/-- The net power stored by `update`. -/
theorem update_power :
    (e.update throttleLever mixtureLever rpm airPressure airDensity
        fuel starter magneto_l magneto_r).power
      = (if rpm < e.rpm_min then 0
          else e.getStaticPower rpm
              (getManifoldAbsolutePressure (e.throttle.getValue throttleLever) rpm airPressure)
            * e.getPowerFactor (e.mixture.getValue mixtureLever) airDensity
                fuel magneto_l magneto_r)
        - e.getPowerLosses rpm := by
  unfold update
  simp only [getPowerFactor, getStaticPower, getPowerLosses]
  split_ifs <;> rfl

/-- The state stored by `update`, in terms of the net power it stores. -/
theorem update_state :
    (e.update throttleLever mixtureLever rpm airPressure airDensity
        fuel starter magneto_l magneto_r).state
      = if runningCond (e.update throttleLever mixtureLever rpm airPressure airDensity
            fuel starter magneto_l magneto_r).power rpm e.rpm_min fuel magneto_l magneto_r
        then EngineState.Running
        else if starter = true then EngineState.Starting else EngineState.Stopped := by
  unfold update runningCond
  simp only [getPowerFactor, getStaticPower, getPowerLosses]
  split_ifs <;> simp_all

end Fields

section FieldsMore

variable (e : PistonEngine) (throttleLever mixtureLever rpm airPressure airDensity : ℚ)
  (fuel starter magneto_l magneto_r : Bool)

/-- The torque stored by `update`, in terms of the net power it stores. -/
theorem update_torque :
    (e.update throttleLever mixtureLever rpm airPressure airDensity
        fuel starter magneto_l magneto_r).torque
      = engineTorque (e.update throttleLever mixtureLever rpm airPressure airDensity
            fuel starter magneto_l magneto_r).power (M_PI * rpm / 30)
        + (if runningCond (e.update throttleLever mixtureLever rpm airPressure airDensity
              fuel starter magneto_l magneto_r).power rpm e.rpm_min fuel magneto_l magneto_r
            then 0
            else if starter = true then e.starter else 0) := by
  unfold update runningCond
  simp only [getPowerFactor, getStaticPower, getPowerLosses]
  split_ifs <;> simp_all

/-- The fuel flow stored by `update`, in terms of the net power it stores. -/
theorem update_fuelFlow :
    (e.update throttleLever mixtureLever rpm airPressure airDensity
        fuel starter magneto_l magneto_r).fuelFlow
      = Misc.max 0 (e.update throttleLever mixtureLever rpm airPressure airDensity
            fuel starter magneto_l magneto_r).power * e.specFuelCons := by
  unfold update
  simp only [getPowerFactor, getStaticPower, getPowerLosses]
  split_ifs <;> rfl

end FieldsMore

/-! ## Engine state (C1) -/

/-- C1 (counterexample). Throttle table value 0, rpm 2400 above `rpm_min` = 600,
fuel available, both magnetos on, starter not engaged: the net power is negative
and the state is Running, while the second wording of the claim (Running only
for net power > 0, Stopped in every remaining case) gives Stopped. -/
theorem C1_counterexample :
    ((scenarioEngine 0 1 1).update 0 1 2400 101325 1.225 true false true true).power < 0
    ∧ ((scenarioEngine 0 1 1).update 0 1 2400 101325 1.225 true false true true).state
        = EngineState.Running
    ∧ specState ((scenarioEngine 0 1 1).update 0 1 2400 101325 1.225 true false true true).power
        2400 (scenarioEngine 0 1 1).rpm_min true false true true = EngineState.Stopped
    ∧ ((scenarioEngine 0 1 1).update 0 1 2400 101325 1.225 true false true true).state
        ≠ specState
            ((scenarioEngine 0 1 1).update 0 1 2400 101325 1.225 true false true true).power
            2400 (scenarioEngine 0 1 1).rpm_min true false true true := by
  have hp : ((scenarioEngine 0 1 1).update 0 1 2400 101325 1.225 true false true true).power
      = -(1642501 / 25) := by
    rw [update_power]
    norm_num [scenarioEngine, constTable, getStaticPower, getPowerFactor, getPowerLosses,
      getManifoldAbsolutePressure, Misc.max, Misc.satur]
  have hs : ((scenarioEngine 0 1 1).update 0 1 2400 101325 1.225 true false true true).state
      = EngineState.Running := by
    rw [update_state, hp]
    norm_num [runningCond, scenarioEngine]
  have hspec : specState
      ((scenarioEngine 0 1 1).update 0 1 2400 101325 1.225 true false true true).power
      2400 (scenarioEngine 0 1 1).rpm_min true false true true = EngineState.Stopped := by
    rw [hp]
    norm_num [specState, scenarioEngine]
  refine ⟨?_, hs, hspec, ?_⟩
  · rw [hp]; norm_num
  · rw [hs, hspec]; decide

/-- C1 (amended). For every engine and every input to `update`, the resulting
state is Running exactly when net power > 0 or (rpm > rpm_min and fuel and a
magneto on); it is Starting exactly when that condition is false and the starter
is engaged, that is when the starter is engaged, net power ≤ 0 and (rpm ≤ rpm_min
or no fuel or both magnetos off); and it is Stopped exactly when the condition is
false and the starter is not engaged. -/
theorem C1_update_state (e : PistonEngine)
    (throttleLever mixtureLever rpm airPressure airDensity : ℚ)
    (fuel starter magneto_l magneto_r : Bool) :
    ((e.update throttleLever mixtureLever rpm airPressure airDensity
          fuel starter magneto_l magneto_r).state = EngineState.Running
        ↔ ((e.update throttleLever mixtureLever rpm airPressure airDensity
              fuel starter magneto_l magneto_r).power > 0
            ∨ (rpm > e.rpm_min ∧ fuel = true ∧ (magneto_l = true ∨ magneto_r = true))))
    ∧ ((e.update throttleLever mixtureLever rpm airPressure airDensity
          fuel starter magneto_l magneto_r).state = EngineState.Starting
        ↔ (starter = true
            ∧ (e.update throttleLever mixtureLever rpm airPressure airDensity
                fuel starter magneto_l magneto_r).power ≤ 0
            ∧ (rpm ≤ e.rpm_min ∨ fuel = false ∨ (magneto_l = false ∧ magneto_r = false))))
    ∧ ((e.update throttleLever mixtureLever rpm airPressure airDensity
          fuel starter magneto_l magneto_r).state = EngineState.Stopped
        ↔ (starter = false
            ∧ (e.update throttleLever mixtureLever rpm airPressure airDensity
                fuel starter magneto_l magneto_r).power ≤ 0
            ∧ (rpm ≤ e.rpm_min ∨ fuel = false
                ∨ (magneto_l = false ∧ magneto_r = false)))) := by
  rw [update_state]
  generalize (e.update throttleLever mixtureLever rpm airPressure airDensity
      fuel starter magneto_l magneto_r).power = P
  have key : ¬ runningCond P rpm e.rpm_min fuel magneto_l magneto_r
      ↔ (P ≤ 0 ∧ (rpm ≤ e.rpm_min ∨ fuel = false
          ∨ (magneto_l = false ∧ magneto_r = false))) := by
    unfold runningCond
    cases fuel <;> cases magneto_l <;> cases magneto_r <;> simp [not_lt]
  by_cases hc : runningCond P rpm e.rpm_min fuel magneto_l magneto_r
  · have hn := (not_congr key).mp (not_not.mpr hc)
    have hc2 := hc
    unfold runningCond at hc2
    simp only [hc, if_true, true_iff, reduceCtorEq, false_iff]
    exact ⟨hc2, fun h => hn h.2, fun h => hn h.2⟩
  · have hk := key.mp hc
    have hc2 := hc
    unfold runningCond at hc2
    simp only [hc, if_false]
    refine ⟨⟨fun h => ?_, fun h => absurd h hc2⟩, ⟨fun h => ⟨?_, hk⟩, fun h => ?_⟩,
      ⟨fun h => ⟨?_, hk⟩, fun h => ?_⟩⟩
    · cases starter <;> simp at h
    · cases starter <;> simp at h ⊢
    · simp [h.1]
    · cases starter <;> simp at h ⊢
    · simp [h.1]

/-! ## Net power below the minimum rpm (C2) -/

/-- C2. For every engine and every input to `update` with rpm < rpm_min, the
thermal power is forced to zero whatever the throttle, mixture, pressure,
density, fuel, starter and magneto inputs are: the stored net power equals minus
`getPowerLosses rpm`, and is therefore ≤ 0. -/
theorem C2_power_below_rpm_min (e : PistonEngine)
    (throttleLever mixtureLever rpm airPressure airDensity : ℚ)
    (fuel starter magneto_l magneto_r : Bool) (h : rpm < e.rpm_min) :
    (e.update throttleLever mixtureLever rpm airPressure airDensity
        fuel starter magneto_l magneto_r).power = -e.getPowerLosses rpm
    ∧ (e.update throttleLever mixtureLever rpm airPressure airDensity
        fuel starter magneto_l magneto_r).power ≤ 0 := by
  have hp : (e.update throttleLever mixtureLever rpm airPressure airDensity
      fuel starter magneto_l magneto_r).power = -e.getPowerLosses rpm := by
    rw [update_power, if_pos h, zero_sub]
  refine ⟨hp, ?_⟩
  rw [hp]
  exact neg_nonpos.mpr (getPowerLosses_nonneg e rpm)

/-- C2 (witness). The scenario engine at rpm 300, below `rpm_min` = 600, full
throttle, full rich, fuel and both magnetos on. -/
theorem C2_power_below_rpm_min_witness :
    (300 : ℚ) < (scenarioEngine 1 1 1).rpm_min
    ∧ ((scenarioEngine 1 1 1).update 1 1 300 101325 1.225 true false true true).power
        = -(scenarioEngine 1 1 1).getPowerLosses 300
    ∧ ((scenarioEngine 1 1 1).update 1 1 300 101325 1.225 true false true true).power ≤ 0 :=
  ⟨by norm_num [scenarioEngine],
    C2_power_below_rpm_min (scenarioEngine 1 1 1) 1 1 300 101325 1.225 true false true true
      (by norm_num [scenarioEngine])⟩

/-! ## Power factor (C3, C4) -/

/-- C3. For every mixture table value, air density, power-factor curve and flag
combination, `getPowerFactor` returns a value in the closed interval [0,1]; and
with `fuel = false` it returns exactly 0 regardless of the other inputs. -/
theorem C3_getPowerFactor_range (e : PistonEngine) (mixture airDensity : ℚ)
    (fuel magneto_l magneto_r : Bool) :
    0 ≤ e.getPowerFactor mixture airDensity fuel magneto_l magneto_r
    ∧ e.getPowerFactor mixture airDensity fuel magneto_l magneto_r ≤ 1
    ∧ e.getPowerFactor mixture airDensity false magneto_l magneto_r = 0 := by
  refine ⟨?_, ?_, getPowerFactor_no_fuel e mixture airDensity magneto_l magneto_r⟩
  · exact (Misc_satur_unit_bounds _).1
  · exact (Misc_satur_unit_bounds _).2

/-- C4 (counterexample). With a power-factor curve whose value is 2, fuel
available, mixture value 1 and air density 1.225: both magnetos give 1 (saturated)
and one magneto, left or right, gives 1 as well (2 * 0.95 = 1.9, saturated), which
is not 0.95 times the two-magneto value. -/
theorem C4_counterexample :
    (scenarioEngine 1 1 2).getPowerFactor 1 1.225 true true true = 1
    ∧ (scenarioEngine 1 1 2).getPowerFactor 1 1.225 true true false = 1
    ∧ (scenarioEngine 1 1 2).getPowerFactor 1 1.225 true false true = 1
    ∧ (scenarioEngine 1 1 2).getPowerFactor 1 1.225 true true false
        ≠ 0.95 * (scenarioEngine 1 1 2).getPowerFactor 1 1.225 true true true := by
  norm_num [scenarioEngine, constTable, getPowerFactor, Misc.satur]

/-- C4 (amended). For every mixture table value, air density and power-factor
curve whose value at the looked-up fuel/air ratio is at most 1, with fuel
available: the value `getPowerFactor` returns with exactly one magneto on (left
only, or right only) equals 0.95 times the value it returns with both magnetos
on. -/
theorem C4_one_magneto (e : PistonEngine) (mixture airDensity : ℚ)
    (h : e.powerFactor.getValue (mixture * (1.225 / airDensity) * 0.1) ≤ 1) :
    e.getPowerFactor mixture airDensity true true false
        = 0.95 * e.getPowerFactor mixture airDensity true true true
    ∧ e.getPowerFactor mixture airDensity true false true
        = 0.95 * e.getPowerFactor mixture airDensity true true true := by
  simp only [getPowerFactor, Misc.satur, Bool.not_true, Bool.not_false, Bool.and_true,
    Bool.and_false, Bool.or_false, Bool.or_true, Bool.false_eq_true, if_false, if_true,
    Bool.false_and, Bool.true_and, Bool.false_or, Bool.true_or]
  generalize e.powerFactor.getValue (mixture * (1.225 / airDensity) * 0.1) = v at h
  have h95 : v * 0.95 < 0 ↔ v < 0 := by
    constructor <;> intro hv <;> [nlinarith; nlinarith]
  by_cases hv : v < 0
  · have hv2 : v * 0.95 < 0 := h95.mpr hv
    simp [hv, hv2]
  · have hv2 : ¬ v * 0.95 < 0 := fun h0 => hv (h95.mp h0)
    have hv3 : ¬ v > 1 := not_lt.mpr h
    have hv4 : ¬ v * 0.95 > 1 := by
      intro h1
      have : v * 0.95 ≤ 1 * 0.95 := by nlinarith [not_lt.mp hv]
      norm_num at this h1
      linarith
    simp only [hv, hv2, hv3, hv4, if_false]
    constructor <;> ring

/-- C4 (witness). The scenario engine with a power-factor curve of value 1. -/
theorem C4_one_magneto_witness :
    (scenarioEngine 1 1 1).powerFactor.getValue (1 * (1.225 / 1.225) * 0.1) ≤ 1
    ∧ (scenarioEngine 1 1 1).getPowerFactor 1 1.225 true true false
        = 0.95 * (scenarioEngine 1 1 1).getPowerFactor 1 1.225 true true true
    ∧ (scenarioEngine 1 1 1).getPowerFactor 1 1.225 true false true
        = 0.95 * (scenarioEngine 1 1 1).getPowerFactor 1 1.225 true true true :=
  ⟨by norm_num [scenarioEngine, constTable],
    C4_one_magneto (scenarioEngine 1 1 1) 1 1.225 (by norm_num [scenarioEngine, constTable])⟩

/-! ## Engine torque (C5) -/

/-- For `omega > 1` the two branch expressions of the torque differ by
`|P| * ((omega - 1) / omega)`. -/
theorem torque_branch_gap (P omega : ℚ) (h : 1 < omega) :
    |P / omega - P| = |P| * ((omega - 1) / omega) := by
  have h0 : (0 : ℚ) < omega := lt_trans zero_lt_one h
  have hq : 0 ≤ (omega - 1) / omega := div_nonneg (by linarith) h0.le
  have e1 : P / omega - P = -(P * ((omega - 1) / omega)) := by
    field_simp
    ring
  rw [e1, abs_neg, abs_mul, abs_of_nonneg hq]

/-- C5. In `update`, with omega = M_PI * rpm / 30 and stored net power P, the
torque is the combustion torque (P / omega when omega > 1, P otherwise) plus the
starter torque when the state is Starting; the two branch expressions agree at
omega = 1; for fixed P the combustion torque as a function of omega is
continuous at omega = 1; and for every omega > 1 the difference |P / omega - P|
is at most |P|. -/
theorem C5_torque (e : PistonEngine)
    (throttleLever mixtureLever rpm airPressure airDensity : ℚ)
    (fuel starter magneto_l magneto_r : Bool) :
    (e.update throttleLever mixtureLever rpm airPressure airDensity
        fuel starter magneto_l magneto_r).torque
      = (if M_PI * rpm / 30 > 1 then
            (e.update throttleLever mixtureLever rpm airPressure airDensity
              fuel starter magneto_l magneto_r).power / (M_PI * rpm / 30)
          else
            (e.update throttleLever mixtureLever rpm airPressure airDensity
              fuel starter magneto_l magneto_r).power)
        + (if (e.update throttleLever mixtureLever rpm airPressure airDensity
                fuel starter magneto_l magneto_r).state = EngineState.Starting
            then e.starter else 0)
    ∧ (∀ P : ℚ, engineTorque P 1 = P ∧ P / 1 = P)
    ∧ (∀ P ε : ℚ, 0 < ε →
        ∃ δ : ℚ, 0 < δ ∧
          ∀ omega : ℚ, |omega - 1| < δ → |engineTorque P omega - engineTorque P 1| < ε)
    ∧ (∀ P omega : ℚ, 1 < omega → |P / omega - P| ≤ |P|) := by
  refine ⟨?_, ?_, ?_, ?_⟩
  · rw [update_torque, update_state]
    unfold engineTorque
    by_cases hc : runningCond (e.update throttleLever mixtureLever rpm airPressure airDensity
        fuel starter magneto_l magneto_r).power rpm e.rpm_min fuel magneto_l magneto_r
    · simp [hc]
    · cases starter <;> simp [hc]
  · intro P
    simp [engineTorque]
  · intro P ε hε
    have hden : (0 : ℚ) < |P| + 1 := by positivity
    refine ⟨ε / (|P| + 1), div_pos hε hden, ?_⟩
    intro omega hom
    have h1 : engineTorque P 1 = P := by simp [engineTorque]
    rw [h1]
    unfold engineTorque
    split_ifs with hgt
    · have h0 : (0 : ℚ) < omega := lt_trans zero_lt_one hgt
      rw [torque_branch_gap P omega hgt]
      have hd : omega - 1 < ε / (|P| + 1) := by
        have := abs_lt.mp hom
        exact this.2
      have hq1 : (omega - 1) / omega ≤ omega - 1 := by
        rw [div_le_iff₀ h0]
        nlinarith
      have hq0 : 0 ≤ omega - 1 := by linarith
      calc |P| * ((omega - 1) / omega) ≤ |P| * (omega - 1) :=
            mul_le_mul_of_nonneg_left hq1 (abs_nonneg P)
        _ ≤ |P| * (ε / (|P| + 1)) := mul_le_mul_of_nonneg_left hd.le (abs_nonneg P)
        _ < (|P| + 1) * (ε / (|P| + 1)) := by
            apply mul_lt_mul_of_pos_right _ (div_pos hε hden)
            linarith
        _ = ε := by field_simp
    · simpa using hε
  · intro P omega hom
    have h0 : (0 : ℚ) < omega := lt_trans zero_lt_one hom
    rw [torque_branch_gap P omega hom]
    have hq : (omega - 1) / omega ≤ 1 := by
      rw [div_le_iff₀ h0]
      linarith
    calc |P| * ((omega - 1) / omega) ≤ |P| * 1 := mul_le_mul_of_nonneg_left hq (abs_nonneg P)
      _ = |P| := mul_one _

/-! ## Floors at zero (C6) -/

/-- C6. For every throttle table value, rpm and ambient pressure,
`getManifoldAbsolutePressure` returns a value ≥ 0; and for every rpm and every
parameter set (any `power_max` and `rpm_max`), `getPowerLosses` returns a value
≥ 0. -/
theorem C6_map_and_losses_nonneg (e : PistonEngine) (throttle rpm airPressure : ℚ) :
    0 ≤ getManifoldAbsolutePressure throttle rpm airPressure ∧ 0 ≤ e.getPowerLosses rpm :=
  ⟨Misc_max_zero_nonneg _, getPowerLosses_nonneg e rpm⟩

/-! ## Scenarios (C7, C8, C9) -/

/-- C7. Scenario: `power_max = 119310`, `rpm_max = 2700`, `rpm_min = 600`,
`sfc = 8.6e-8`, throttle table value 1, mixture table value 1, rpm 2400, ambient
pressure 101325, ambient density 1.225, fuel available, starter off, both
magnetos on. Whatever the power-factor curve is, `update` leaves the state
Running; and for a curve whose value at the looked-up fuel/air ratio 0.1 is 1 it
leaves net power > 0 and fuel flow > 0. -/
theorem C7_scenario_running (e : PistonEngine) (throttleLever mixtureLever : ℚ)
    (hpm : e.power_max = 119310) (hmax : e.rpm_max = 2700) (hmin : e.rpm_min = 600)
    (hsfc : e.specFuelCons = 8.6e-8)
    (hthr : e.throttle.getValue throttleLever = 1)
    (hmix : e.mixture.getValue mixtureLever = 1) :
    (e.update throttleLever mixtureLever 2400 101325 1.225 true false true true).state
        = EngineState.Running
    ∧ (e.powerFactor.getValue 0.1 = 1 →
        (e.update throttleLever mixtureLever 2400 101325 1.225 true false true true).power > 0
        ∧ (e.update throttleLever mixtureLever 2400 101325 1.225 true false true true).fuelFlow
            > 0) := by
  constructor
  · rw [update_state, if_pos]
    right
    rw [hmin]
    norm_num
  · intro hpf
    have harg : (1 : ℚ) * (1.225 / 1.225) * 0.1 = 0.1 := by norm_num
    have hp : (e.update throttleLever mixtureLever 2400 101325 1.225 true false true true).power
        = 1126200950203977060071 / 10000000000000000 := by
      rw [update_power]
      simp only [getStaticPower, getPowerFactor, getPowerLosses, getManifoldAbsolutePressure,
        hpm, hmax, hmin, hthr, hmix, harg, hpf]
      norm_num [Misc.max, Misc.satur]
    refine ⟨by rw [hp]; norm_num, ?_⟩
    rw [update_fuelFlow, hp, hsfc]
    norm_num [Misc.max]

/-- C7 (witness). The scenario engine with constant tables of value 1. -/
theorem C7_scenario_running_witness :
    ((scenarioEngine 1 1 1).update 1 1 2400 101325 1.225 true false true true).state
        = EngineState.Running
    ∧ ((scenarioEngine 1 1 1).powerFactor.getValue 0.1 = 1 →
        ((scenarioEngine 1 1 1).update 1 1 2400 101325 1.225 true false true true).power > 0
        ∧ ((scenarioEngine 1 1 1).update 1 1 2400 101325 1.225 true false true true).fuelFlow
            > 0) :=
  C7_scenario_running (scenarioEngine 1 1 1) 1 1 rfl rfl rfl rfl rfl rfl

/-- C8. For every engine and every input to `update` with `fuel = false`: the
power factor used is 0, so the net power is minus the power losses and hence
≤ 0; and with the starter not engaged the resulting state is Stopped. -/
theorem C8_no_fuel (e : PistonEngine)
    (throttleLever mixtureLever rpm airPressure airDensity : ℚ)
    (starter magneto_l magneto_r : Bool) :
    e.getPowerFactor (e.mixture.getValue mixtureLever) airDensity false magneto_l magneto_r = 0
    ∧ (e.update throttleLever mixtureLever rpm airPressure airDensity
        false starter magneto_l magneto_r).power = -e.getPowerLosses rpm
    ∧ (e.update throttleLever mixtureLever rpm airPressure airDensity
        false starter magneto_l magneto_r).power ≤ 0
    ∧ (e.update throttleLever mixtureLever rpm airPressure airDensity
        false false magneto_l magneto_r).state = EngineState.Stopped := by
  have hp : ∀ s : Bool, (e.update throttleLever mixtureLever rpm airPressure airDensity
      false s magneto_l magneto_r).power = -e.getPowerLosses rpm := by
    intro s
    rw [update_power, getPowerFactor_no_fuel]
    simp
  have hle : -e.getPowerLosses rpm ≤ 0 := neg_nonpos.mpr (getPowerLosses_nonneg e rpm)
  refine ⟨getPowerFactor_no_fuel _ _ _ _ _, hp starter, by rw [hp starter]; exact hle, ?_⟩
  rw [update_state, hp false, if_neg]
  · simp
  · unfold runningCond
    simp [not_lt.mpr hle]

/-- C9. For every engine with `rpm_min > 0` and `rpm_max > 0` and every input to
`update` with rpm = 0, starter engaged and no fuel (any throttle, mixture,
pressure, density and magneto inputs): the resulting state is Starting, the net
power is 0, and the resulting torque equals the starter torque. -/
theorem C9_starter_at_rest (e : PistonEngine)
    (throttleLever mixtureLever airPressure airDensity : ℚ) (magneto_l magneto_r : Bool)
    (hmin : 0 < e.rpm_min) (hmax : 0 < e.rpm_max) :
    (e.update throttleLever mixtureLever 0 airPressure airDensity
        false true magneto_l magneto_r).state = EngineState.Starting
    ∧ (e.update throttleLever mixtureLever 0 airPressure airDensity
        false true magneto_l magneto_r).power = 0
    ∧ (e.update throttleLever mixtureLever 0 airPressure airDensity
        false true magneto_l magneto_r).torque = e.starter := by
  have _ := hmax
  have hp : (e.update throttleLever mixtureLever 0 airPressure airDensity
      false true magneto_l magneto_r).power = 0 := by
    rw [update_power, if_pos hmin]
    simp [getPowerLosses, Misc.max]
  have hc : ¬ runningCond 0 0 e.rpm_min false magneto_l magneto_r := by
    unfold runningCond
    simp
  refine ⟨?_, hp, ?_⟩
  · rw [update_state, hp, if_neg hc]
    simp
  · rw [update_torque, hp, if_neg hc]
    simp [engineTorque]

/-- C9 (witness). The scenario engine (`rpm_min = 600`, `rpm_max = 2700`, starter
torque 40) at rest, starter engaged, no fuel. -/
theorem C9_starter_at_rest_witness :
    (0 : ℚ) < (scenarioEngine 1 1 1).rpm_min ∧ (0 : ℚ) < (scenarioEngine 1 1 1).rpm_max
    ∧ ((scenarioEngine 1 1 1).update 1 1 0 101325 1.225 false true true true).state
        = EngineState.Starting
    ∧ ((scenarioEngine 1 1 1).update 1 1 0 101325 1.225 false true true true).power = 0
    ∧ ((scenarioEngine 1 1 1).update 1 1 0 101325 1.225 false true true true).torque
        = (scenarioEngine 1 1 1).starter :=
  ⟨by norm_num [scenarioEngine], by norm_num [scenarioEngine],
    C9_starter_at_rest (scenarioEngine 1 1 1) 1 1 101325 1.225 true true
      (by norm_num [scenarioEngine]) (by norm_num [scenarioEngine])⟩

/-! ## Force and moment of the propulsion (C10) -/

/-- C10. For every propeller and aircraft, with T, r, W, Ip the thrust, position,
angular speed and inertia the propeller reports after `computeThrust`, Ie the
engine inertia and w the aircraft angular rate, `computeForceAndMoment` sets the
force to (T, 0, 0) and the moment to r x (T, 0, 0) + (Ip + Ie) * ((s*W, 0, 0) x w),
with s = 1 when the propeller direction is CW and s = -1 otherwise; in components
the moment is (0, r.z*T - (Ip+Ie)*s*W*w.z, -(r.y*T) + (Ip+Ie)*s*W*w.y). -/
theorem C10_force_and_moment {P : Type} (ops : PropellerOps P) (isValid : Vector3 → Bool)
    (aircraft : C172_Aircraft) (s : C172_Propulsion P) :
    (s.computeForceAndMoment ops isValid aircraft).1.for_bas
      = ⟨ops.getThrust (ops.computeThrust s.propeller aircraft.airspeed aircraft.density), 0, 0⟩
    ∧ (s.computeForceAndMoment ops isValid aircraft).1.mom_bas
      = Vector3.add
          (Vector3.cross
            (ops.getPos_BAS (ops.computeThrust s.propeller aircraft.airspeed aircraft.density))
            ⟨ops.getThrust (ops.computeThrust s.propeller aircraft.airspeed aircraft.density),
              0, 0⟩)
          (Vector3.scale
            (ops.getInertia (ops.computeThrust s.propeller aircraft.airspeed aircraft.density)
              + s.engine.inertia)
            (Vector3.cross
              ⟨(if ops.getDirection
                    (ops.computeThrust s.propeller aircraft.airspeed aircraft.density)
                    = Direction.CW then 1 else -1)
                * ops.getOmega (ops.computeThrust s.propeller aircraft.airspeed aircraft.density),
                0, 0⟩
              aircraft.omg_bas))
    ∧ (s.computeForceAndMoment ops isValid aircraft).1.mom_bas
      = ⟨0,
          (ops.getPos_BAS (ops.computeThrust s.propeller aircraft.airspeed aircraft.density)).z
              * ops.getThrust (ops.computeThrust s.propeller aircraft.airspeed aircraft.density)
            - (ops.getInertia (ops.computeThrust s.propeller aircraft.airspeed aircraft.density)
                + s.engine.inertia)
              * (if ops.getDirection
                    (ops.computeThrust s.propeller aircraft.airspeed aircraft.density)
                    = Direction.CW then 1 else -1)
              * ops.getOmega (ops.computeThrust s.propeller aircraft.airspeed aircraft.density)
              * aircraft.omg_bas.z,
          -((ops.getPos_BAS (ops.computeThrust s.propeller aircraft.airspeed aircraft.density)).y
              * ops.getThrust (ops.computeThrust s.propeller aircraft.airspeed aircraft.density))
            + (ops.getInertia (ops.computeThrust s.propeller aircraft.airspeed aircraft.density)
                + s.engine.inertia)
              * (if ops.getDirection
                    (ops.computeThrust s.propeller aircraft.airspeed aircraft.density)
                    = Direction.CW then 1 else -1)
              * ops.getOmega (ops.computeThrust s.propeller aircraft.airspeed aircraft.density)
              * aircraft.omg_bas.y⟩ := by
  generalize hp : ops.computeThrust s.propeller aircraft.airspeed aircraft.density = p
  have hfor : (s.computeForceAndMoment ops isValid aircraft).1.for_bas
      = ⟨ops.getThrust p, 0, 0⟩ := by
    unfold C172_Propulsion.computeForceAndMoment
    simp only [hp]
    split_ifs <;> rfl
  have hmom : (s.computeForceAndMoment ops isValid aircraft).1.mom_bas
      = Vector3.add (Vector3.cross (ops.getPos_BAS p) ⟨ops.getThrust p, 0, 0⟩)
          (Vector3.scale (ops.getInertia p + s.engine.inertia)
            (Vector3.cross
              ⟨(if ops.getDirection p = Direction.CW then 1 else -1) * ops.getOmega p, 0, 0⟩
              aircraft.omg_bas)) := by
    unfold C172_Propulsion.computeForceAndMoment
    simp only [hp]
    by_cases hd : ops.getDirection p = Direction.CW
    · simp only [hd, if_true, one_mul, Vector3.zero]
      split_ifs <;> rfl
    · simp only [hd, if_false, neg_one_mul, Vector3.zero]
      split_ifs <;> rfl
  refine ⟨hfor, hmom, ?_⟩
  rw [hmom]
  simp only [Vector3.add, Vector3.scale, Vector3.cross, Vector3.mk.injEq]
  refine ⟨by ring, by ring, by ring⟩

/-! ## Validity test of the force and moment (C11) -/

/-- The exception `computeForceAndMoment` throws, in terms of the vectors it
stores. -/
theorem computeForceAndMoment_thrown {P : Type} (ops : PropellerOps P)
    (isValid : Vector3 → Bool) (aircraft : C172_Aircraft) (s : C172_Propulsion P) :
    (s.computeForceAndMoment ops isValid aircraft).2
      = if isValid (s.computeForceAndMoment ops isValid aircraft).1.for_bas = true
            ∧ isValid (s.computeForceAndMoment ops isValid aircraft).1.mom_bas = true
        then none else some ExceptionType.UnexpectedNaN := by
  unfold C172_Propulsion.computeForceAndMoment
  by_cases hd : ops.getDirection
      (ops.computeThrust s.propeller aircraft.airspeed aircraft.density) = Direction.CW
  · simp only [hd, if_true]
    split_ifs <;> simp_all
  · simp only [hd, if_false]
    split_ifs <;> simp_all

/-- C11. With `isFinite` the finiteness test of one component,
`computeForceAndMoment` fails with an UnexpectedNaN exception if and only if some
component of the stored force vector or of the stored moment vector is not
finite; it returns normally if and only if all six components are finite; and it
throws no other exception. -/
theorem C11_unexpected_nan {P : Type} (ops : PropellerOps P) (isFinite : ℚ → Bool)
    (aircraft : C172_Aircraft) (s : C172_Propulsion P) :
    ((s.computeForceAndMoment ops (Vector3.isValid isFinite) aircraft).2
        = some ExceptionType.UnexpectedNaN
      ↔ (isFinite (s.computeForceAndMoment ops (Vector3.isValid isFinite)
              aircraft).1.for_bas.x = false
          ∨ isFinite (s.computeForceAndMoment ops (Vector3.isValid isFinite)
              aircraft).1.for_bas.y = false
          ∨ isFinite (s.computeForceAndMoment ops (Vector3.isValid isFinite)
              aircraft).1.for_bas.z = false
          ∨ isFinite (s.computeForceAndMoment ops (Vector3.isValid isFinite)
              aircraft).1.mom_bas.x = false
          ∨ isFinite (s.computeForceAndMoment ops (Vector3.isValid isFinite)
              aircraft).1.mom_bas.y = false
          ∨ isFinite (s.computeForceAndMoment ops (Vector3.isValid isFinite)
              aircraft).1.mom_bas.z = false))
    ∧ ((s.computeForceAndMoment ops (Vector3.isValid isFinite) aircraft).2 = none
      ↔ (isFinite (s.computeForceAndMoment ops (Vector3.isValid isFinite)
              aircraft).1.for_bas.x = true
          ∧ isFinite (s.computeForceAndMoment ops (Vector3.isValid isFinite)
              aircraft).1.for_bas.y = true
          ∧ isFinite (s.computeForceAndMoment ops (Vector3.isValid isFinite)
              aircraft).1.for_bas.z = true
          ∧ isFinite (s.computeForceAndMoment ops (Vector3.isValid isFinite)
              aircraft).1.mom_bas.x = true
          ∧ isFinite (s.computeForceAndMoment ops (Vector3.isValid isFinite)
              aircraft).1.mom_bas.y = true
          ∧ isFinite (s.computeForceAndMoment ops (Vector3.isValid isFinite)
              aircraft).1.mom_bas.z = true))
    ∧ ((s.computeForceAndMoment ops (Vector3.isValid isFinite) aircraft).2 = none
      ∨ (s.computeForceAndMoment ops (Vector3.isValid isFinite) aircraft).2
          = some ExceptionType.UnexpectedNaN) := by
  rw [computeForceAndMoment_thrown]
  generalize (s.computeForceAndMoment ops (Vector3.isValid isFinite) aircraft).1.for_bas = f
  generalize (s.computeForceAndMoment ops (Vector3.isValid isFinite) aircraft).1.mom_bas = m
  unfold Vector3.isValid
  cases isFinite f.x <;> cases isFinite f.y <;> cases isFinite f.z <;>
    cases isFinite m.x <;> cases isFinite m.y <;> cases isFinite m.z <;> simp

/-! ## Net power and fuel flow (C12, C13) -/

/-- C12 (counterexample). The scenario engine at rpm 300, below `rpm_min` = 600,
full throttle, full rich, fuel and both magnetos on: the stored net power is
minus the power losses, about -1026.6 W, and not 0. -/
theorem C12_counterexample :
    (300 : ℚ) < (scenarioEngine 1 1 1).rpm_min
    ∧ ((scenarioEngine 1 1 1).update 1 1 300 101325 1.225 true false true true).power
        = -(1642501 / 1600)
    ∧ ((scenarioEngine 1 1 1).update 1 1 300 101325 1.225 true false true true).power ≠ 0 := by
  have hp : ((scenarioEngine 1 1 1).update 1 1 300 101325 1.225 true false true true).power
      = -(1642501 / 1600) := by
    rw [update_power]
    norm_num [scenarioEngine, constTable, getStaticPower, getPowerFactor, getPowerLosses,
      getManifoldAbsolutePressure, Misc.max, Misc.satur]
  refine ⟨by norm_num [scenarioEngine], hp, ?_⟩
  rw [hp]
  norm_num

/-- C12 (amended). For every engine and every input to `update`, the stored net
power equals staticPower * powerFactor - powerLosses when rpm ≥ rpm_min, and
equals minus powerLosses (the thermal power, not the net power, being forced to
0) when rpm < rpm_min. -/
theorem C12_net_power (e : PistonEngine)
    (throttleLever mixtureLever rpm airPressure airDensity : ℚ)
    (fuel starter magneto_l magneto_r : Bool) :
    (e.rpm_min ≤ rpm →
      (e.update throttleLever mixtureLever rpm airPressure airDensity
          fuel starter magneto_l magneto_r).power
        = e.getStaticPower rpm
            (getManifoldAbsolutePressure (e.throttle.getValue throttleLever) rpm airPressure)
          * e.getPowerFactor (e.mixture.getValue mixtureLever) airDensity
              fuel magneto_l magneto_r
          - e.getPowerLosses rpm)
    ∧ (rpm < e.rpm_min →
      (e.update throttleLever mixtureLever rpm airPressure airDensity
          fuel starter magneto_l magneto_r).power
        = -e.getPowerLosses rpm) := by
  constructor
  · intro h
    rw [update_power, if_neg (not_lt.mpr h)]
  · intro h
    rw [update_power, if_pos h, zero_sub]

/-- C12 (witness). The scenario engine at rpm 2400, at or above `rpm_min` = 600,
and at rpm 300, below it. -/
theorem C12_net_power_witness :
    (scenarioEngine 1 1 1).rpm_min ≤ 2400
    ∧ ((scenarioEngine 1 1 1).update 1 1 2400 101325 1.225 true false true true).power
        = (scenarioEngine 1 1 1).getStaticPower 2400
            (getManifoldAbsolutePressure ((scenarioEngine 1 1 1).throttle.getValue 1) 2400 101325)
          * (scenarioEngine 1 1 1).getPowerFactor ((scenarioEngine 1 1 1).mixture.getValue 1)
              1.225 true true true
          - (scenarioEngine 1 1 1).getPowerLosses 2400
    ∧ (300 : ℚ) < (scenarioEngine 1 1 1).rpm_min
    ∧ ((scenarioEngine 1 1 1).update 1 1 300 101325 1.225 true false true true).power
        = -(scenarioEngine 1 1 1).getPowerLosses 300 :=
  ⟨by norm_num [scenarioEngine],
    (C12_net_power (scenarioEngine 1 1 1) 1 1 2400 101325 1.225 true false true true).1
      (by norm_num [scenarioEngine]),
    by norm_num [scenarioEngine],
    (C12_net_power (scenarioEngine 1 1 1) 1 1 300 101325 1.225 true false true true).2
      (by norm_num [scenarioEngine])⟩

/-- The modelled `Misc::max` is the greater of its two arguments. -/
theorem Misc_max_eq (a b : ℚ) : Misc.max a b = max a b := by
  unfold Misc.max
  split_ifs with h
  · exact (max_eq_left (le_of_lt h)).symm
  · exact (max_eq_right (not_lt.mp h)).symm

/-- C13. For every engine and every input to `update`, the stored fuel flow
equals max(0, netPower) * specificFuelConsumption; hence for a specific fuel
consumption ≥ 0 the fuel flow is never negative, and it is exactly 0 whenever the
net power is ≤ 0. -/
theorem C13_fuel_flow (e : PistonEngine)
    (throttleLever mixtureLever rpm airPressure airDensity : ℚ)
    (fuel starter magneto_l magneto_r : Bool) :
    (e.update throttleLever mixtureLever rpm airPressure airDensity
        fuel starter magneto_l magneto_r).fuelFlow
      = max 0 (e.update throttleLever mixtureLever rpm airPressure airDensity
            fuel starter magneto_l magneto_r).power * e.specFuelCons
    ∧ (0 ≤ e.specFuelCons →
        0 ≤ (e.update throttleLever mixtureLever rpm airPressure airDensity
          fuel starter magneto_l magneto_r).fuelFlow)
    ∧ ((e.update throttleLever mixtureLever rpm airPressure airDensity
          fuel starter magneto_l magneto_r).power ≤ 0 →
        (e.update throttleLever mixtureLever rpm airPressure airDensity
          fuel starter magneto_l magneto_r).fuelFlow = 0) := by
  have hf := update_fuelFlow e throttleLever mixtureLever rpm airPressure airDensity
    fuel starter magneto_l magneto_r
  rw [Misc_max_eq] at hf
  refine ⟨hf, ?_, ?_⟩
  · intro hs
    rw [hf]
    exact mul_nonneg (le_max_left 0 _) hs
  · intro hp
    rw [hf, max_eq_left hp, zero_mul]

/-- C13 (witness). The scenario engine (`sfc = 8.6e-8`) at rpm 300, where the net
power is negative: the fuel flow is not negative, and is 0. -/
theorem C13_fuel_flow_witness :
    (0 : ℚ) ≤ (scenarioEngine 1 1 1).specFuelCons
    ∧ 0 ≤ ((scenarioEngine 1 1 1).update 1 1 300 101325 1.225 true false true true).fuelFlow
    ∧ ((scenarioEngine 1 1 1).update 1 1 300 101325 1.225 true false true true).power ≤ 0
    ∧ ((scenarioEngine 1 1 1).update 1 1 300 101325 1.225 true false true true).fuelFlow = 0 :=
  have hp : ((scenarioEngine 1 1 1).update 1 1 300 101325 1.225 true false true true).power
      ≤ 0 := by
    rw [update_power]
    norm_num [scenarioEngine, constTable, getStaticPower, getPowerFactor, getPowerLosses,
      getManifoldAbsolutePressure, Misc.max, Misc.satur]
  ⟨by norm_num [scenarioEngine],
    (C13_fuel_flow (scenarioEngine 1 1 1) 1 1 300 101325 1.225 true false true true).2.1
      (by norm_num [scenarioEngine]),
    hp,
    (C13_fuel_flow (scenarioEngine 1 1 1) 1 1 300 101325 1.225 true false true true).2.2 hp⟩

/-! ## Reading the engine data (C14) -/

/-- C14. With each field read succeeding or failing, `readData` completes
normally if and only if the data node is valid and all nine reads (power_max,
starter, rpm_min, rpm_max, sfc, inertia, mixture, throttle, power_factor)
succeed; in every other case it throws a FileReadingError exception; the reads
attempted are an initial part of the nine in source order, and every attempted
read but the last one succeeded, so no read is attempted after a failing one. -/
theorem C14_readData (e : PistonEngine) (dataNode : XmlNode) :
    ((e.readData dataNode).thrown = none
      ↔ (dataNode.isValid = true
          ∧ readOk dataNode Field.power_max = true ∧ readOk dataNode Field.starter = true
          ∧ readOk dataNode Field.rpm_min = true ∧ readOk dataNode Field.rpm_max = true
          ∧ readOk dataNode Field.sfc = true ∧ readOk dataNode Field.inertia = true
          ∧ readOk dataNode Field.mixture = true ∧ readOk dataNode Field.throttle = true
          ∧ readOk dataNode Field.power_factor = true))
    ∧ ((e.readData dataNode).thrown = none
        ∨ (e.readData dataNode).thrown = some ExceptionType.FileReadingError)
    ∧ (e.readData dataNode).reads <+: fieldOrder
    ∧ (∀ f ∈ (e.readData dataNode).reads.dropLast, readOk dataNode f = true) := by
  unfold readData
  cases hv : dataNode.isValid
  · simp
  simp only [if_true]
  rcases h1 : dataNode.readDouble Field.power_max with _ | v1
  · simp [readDoubleStep, readTableStep, readOk, fieldOrder, h1]
  rcases h2 : dataNode.readDouble Field.starter with _ | v2
  · simp [readDoubleStep, readTableStep, readOk, fieldOrder, h1, h2]
  rcases h3 : dataNode.readDouble Field.rpm_min with _ | v3
  · simp [readDoubleStep, readTableStep, readOk, fieldOrder, h1, h2, h3]
  rcases h4 : dataNode.readDouble Field.rpm_max with _ | v4
  · simp [readDoubleStep, readTableStep, readOk, fieldOrder, h1, h2, h3, h4]
  rcases h5 : dataNode.readDouble Field.sfc with _ | v5
  · simp [readDoubleStep, readTableStep, readOk, fieldOrder, h1, h2, h3, h4, h5]
  rcases h6 : dataNode.readDouble Field.inertia with _ | v6
  · simp [readDoubleStep, readTableStep, readOk, fieldOrder, h1, h2, h3, h4, h5, h6]
  rcases h7 : dataNode.readTable Field.mixture with _ | v7
  · simp [readDoubleStep, readTableStep, readOk, fieldOrder, h1, h2, h3, h4, h5, h6, h7]
  rcases h8 : dataNode.readTable Field.throttle with _ | v8
  · simp [readDoubleStep, readTableStep, readOk, fieldOrder, h1, h2, h3, h4, h5, h6, h7, h8]
  rcases h9 : dataNode.readTable Field.power_factor with _ | v9
  · simp [readDoubleStep, readTableStep, readOk, fieldOrder, h1, h2, h3, h4, h5, h6, h7, h8, h9]
  simp [readDoubleStep, readTableStep, readOk, fieldOrder, h1, h2, h3, h4, h5, h6, h7, h8, h9]

/-! ## The dynamic state is recomputed at every call (C16) -/

section Fresh

variable (e : PistonEngine) (throttleLever mixtureLever rpm airPressure airDensity : ℚ)
  (fuel starter magneto_l magneto_r : Bool)

/-- The result of `update` does not depend on the dynamic state before the call. -/
theorem update_forgets (st : EngineState) (r m p t f : ℚ) :
    ({ e with state := st, rpm := r, map := m, power := p, torque := t, fuelFlow := f }
        : PistonEngine).update throttleLever mixtureLever rpm airPressure airDensity
        fuel starter magneto_l magneto_r
      = e.update throttleLever mixtureLever rpm airPressure airDensity
          fuel starter magneto_l magneto_r := by
  unfold update
  simp only [getPowerFactor, getStaticPower, getPowerLosses]

/-- The engine after `update` is the engine before it with new dynamic state:
the parameters are the same. -/
theorem update_keeps_parameters :
    ({ e with
        state := (e.update throttleLever mixtureLever rpm airPressure airDensity
          fuel starter magneto_l magneto_r).state,
        rpm := (e.update throttleLever mixtureLever rpm airPressure airDensity
          fuel starter magneto_l magneto_r).rpm,
        map := (e.update throttleLever mixtureLever rpm airPressure airDensity
          fuel starter magneto_l magneto_r).map,
        power := (e.update throttleLever mixtureLever rpm airPressure airDensity
          fuel starter magneto_l magneto_r).power,
        torque := (e.update throttleLever mixtureLever rpm airPressure airDensity
          fuel starter magneto_l magneto_r).torque,
        fuelFlow := (e.update throttleLever mixtureLever rpm airPressure airDensity
          fuel starter magneto_l magneto_r).fuelFlow } : PistonEngine)
      = e.update throttleLever mixtureLever rpm airPressure airDensity
          fuel starter magneto_l magneto_r := by
  unfold update
  simp only [getPowerFactor, getStaticPower, getPowerLosses]
  split_ifs <;> rfl

/-- Calling `update` twice with the same arguments leaves the same engine as
calling it once. -/
theorem update_idempotent :
    (e.update throttleLever mixtureLever rpm airPressure airDensity
        fuel starter magneto_l magneto_r).update throttleLever mixtureLever rpm airPressure
        airDensity fuel starter magneto_l magneto_r
      = e.update throttleLever mixtureLever rpm airPressure airDensity
          fuel starter magneto_l magneto_r := by
  have h := update_forgets e throttleLever mixtureLever rpm airPressure airDensity
    fuel starter magneto_l magneto_r
    (e.update throttleLever mixtureLever rpm airPressure airDensity
      fuel starter magneto_l magneto_r).state
    (e.update throttleLever mixtureLever rpm airPressure airDensity
      fuel starter magneto_l magneto_r).rpm
    (e.update throttleLever mixtureLever rpm airPressure airDensity
      fuel starter magneto_l magneto_r).map
    (e.update throttleLever mixtureLever rpm airPressure airDensity
      fuel starter magneto_l magneto_r).power
    (e.update throttleLever mixtureLever rpm airPressure airDensity
      fuel starter magneto_l magneto_r).torque
    (e.update throttleLever mixtureLever rpm airPressure airDensity
      fuel starter magneto_l magneto_r).fuelFlow
  rw [update_keeps_parameters] at h
  exact h

end Fresh

/-- C16. The dynamic state `update` leaves behind is a function of the
parameters and of the arguments only: for any two prior dynamic states, `update`
with the same arguments yields the same engine; `update` is idempotent; and the
torque after a second call with the same arguments is the torque after the
first, so the starter torque does not accumulate. -/
theorem C16_recomputed_fresh (e : PistonEngine)
    (throttleLever mixtureLever rpm airPressure airDensity : ℚ)
    (fuel starter magneto_l magneto_r : Bool) :
    (∀ (st1 st2 : EngineState) (r1 m1 p1 t1 f1 r2 m2 p2 t2 f2 : ℚ),
      ({ e with state := st1, rpm := r1, map := m1, power := p1, torque := t1, fuelFlow := f1 }
          : PistonEngine).update throttleLever mixtureLever rpm airPressure airDensity
          fuel starter magneto_l magneto_r
        = ({ e with state := st2, rpm := r2, map := m2, power := p2, torque := t2, fuelFlow := f2 }
            : PistonEngine).update throttleLever mixtureLever rpm airPressure airDensity
            fuel starter magneto_l magneto_r)
    ∧ (e.update throttleLever mixtureLever rpm airPressure airDensity
          fuel starter magneto_l magneto_r).update throttleLever mixtureLever rpm airPressure
          airDensity fuel starter magneto_l magneto_r
        = e.update throttleLever mixtureLever rpm airPressure airDensity
            fuel starter magneto_l magneto_r
    ∧ ((e.update throttleLever mixtureLever rpm airPressure airDensity
          fuel starter magneto_l magneto_r).update throttleLever mixtureLever rpm airPressure
          airDensity fuel starter magneto_l magneto_r).torque
        = (e.update throttleLever mixtureLever rpm airPressure airDensity
            fuel starter magneto_l magneto_r).torque := by
  refine ⟨?_, ?_, ?_⟩
  · intro st1 st2 r1 m1 p1 t1 f1 r2 m2 p2 t2 f2
    exact (update_forgets e throttleLever mixtureLever rpm airPressure airDensity
        fuel starter magneto_l magneto_r st1 r1 m1 p1 t1 f1).trans
      (update_forgets e throttleLever mixtureLever rpm airPressure airDensity
        fuel starter magneto_l magneto_r st2 r2 m2 p2 t2 f2).symm
  · exact update_idempotent e throttleLever mixtureLever rpm airPressure airDensity
      fuel starter magneto_l magneto_r
  · rw [update_idempotent]

/-! ## One step of the propulsion (C15) -/

/-- C15. In `C172_Propulsion::update`, for every propeller (an opaque state
transformer): the engine is updated with the rpm the propeller reports after
`integrate (timeStep, engineInertia)`; the propeller is then updated, from its
state after `integrate`, with the torque of the engine just updated; and that
torque does not depend on the torque stored by the previous step. -/
theorem C15_update_order {P : Type} (ops : PropellerOps P) (aircraft : C172_Aircraft)
    (s : C172_Propulsion P) :
    (s.update ops aircraft).engine
      = s.engine.update aircraft.engine0.throttle aircraft.engine0.mixture
          (ops.getEngineRPM (ops.integrate s.propeller aircraft.timeStep s.engine.inertia))
          aircraft.pressure aircraft.density
          aircraft.engine0.fuel aircraft.engine0.starter
          aircraft.engine0.ignition aircraft.engine0.ignition
    ∧ (s.update ops aircraft).propeller
      = ops.update (ops.integrate s.propeller aircraft.timeStep s.engine.inertia)
          aircraft.engine0.propeller
          (s.engine.update aircraft.engine0.throttle aircraft.engine0.mixture
            (ops.getEngineRPM (ops.integrate s.propeller aircraft.timeStep s.engine.inertia))
            aircraft.pressure aircraft.density
            aircraft.engine0.fuel aircraft.engine0.starter
            aircraft.engine0.ignition aircraft.engine0.ignition).torque
          aircraft.airspeed aircraft.density
    ∧ (∀ t0 : ℚ,
        (C172_Propulsion.update ops aircraft
            { s with engine := { s.engine with torque := t0 } }).propeller
          = (s.update ops aircraft).propeller) := by
  refine ⟨rfl, rfl, ?_⟩
  intro t0
  have h := update_forgets s.engine aircraft.engine0.throttle aircraft.engine0.mixture
    (ops.getEngineRPM (ops.integrate s.propeller aircraft.timeStep s.engine.inertia))
    aircraft.pressure aircraft.density aircraft.engine0.fuel aircraft.engine0.starter
    aircraft.engine0.ignition aircraft.engine0.ignition
    s.engine.state s.engine.rpm s.engine.map s.engine.power t0 s.engine.fuelFlow
  unfold C172_Propulsion.update
  simp only []
  rw [← h]

/-! ## Manifold pressure falls with rpm (C17) -/

/-- C17. For every ambient pressure and every throttle table value t ≤ 1,
`getManifoldAbsolutePressure` is non-increasing in rpm; consequently for rpm ≥ 0
and ambient pressure p ≥ 0 the manifold pressure never exceeds p. -/
theorem C17_map_antitone (throttle airPressure : ℚ) (ht : throttle ≤ 1) :
    (∀ rpm1 rpm2 : ℚ, rpm1 ≤ rpm2 →
      getManifoldAbsolutePressure throttle rpm2 airPressure
        ≤ getManifoldAbsolutePressure throttle rpm1 airPressure)
    ∧ (∀ rpm : ℚ, 0 ≤ rpm → 0 ≤ airPressure →
      getManifoldAbsolutePressure throttle rpm airPressure ≤ airPressure) := by
  have hc : 156.9411 * throttle - 158.8034 ≤ (0 : ℚ) := by
    have : 156.9411 * throttle ≤ 156.9411 * (1 : ℚ) :=
      mul_le_mul_of_nonneg_left ht (by norm_num)
    norm_num at this ⊢
    linarith
  have hmono : ∀ rpm1 rpm2 : ℚ, rpm1 ≤ rpm2 →
      getManifoldAbsolutePressure throttle rpm2 airPressure
        ≤ getManifoldAbsolutePressure throttle rpm1 airPressure := by
    intro rpm1 rpm2 h
    unfold getManifoldAbsolutePressure
    simp only [Misc_max_eq]
    apply max_le_max (le_refl 0)
    have := mul_le_mul_of_nonpos_left h hc
    linarith
  refine ⟨hmono, ?_⟩
  intro rpm hr hp
  have h0 : getManifoldAbsolutePressure throttle 0 airPressure = airPressure := by
    unfold getManifoldAbsolutePressure
    simp only [Misc_max_eq, mul_zero, add_zero]
    exact max_eq_right hp
  calc getManifoldAbsolutePressure throttle rpm airPressure
      ≤ getManifoldAbsolutePressure throttle 0 airPressure := hmono 0 rpm hr
    _ = airPressure := h0

/-- C17 (witness). Full throttle (table value 1) at sea level pressure: the
manifold pressure at 2400 rpm is at most the one at 600 rpm, and at most the
ambient pressure. -/
theorem C17_map_antitone_witness :
    (1 : ℚ) ≤ 1
    ∧ getManifoldAbsolutePressure 1 2400 101325 ≤ getManifoldAbsolutePressure 1 600 101325
    ∧ getManifoldAbsolutePressure 1 2400 101325 ≤ 101325 :=
  ⟨le_refl 1, (C17_map_antitone 1 101325 (le_refl 1)).1 600 2400 (by norm_num),
    (C17_map_antitone 1 101325 (le_refl 1)).2 2400 (by norm_num) (by norm_num)⟩

/-! ## One ignition input for both magnetos (C18) -/

/-- With both magneto flags equal, `getPowerFactor` is 0 unless fuel and
ignition are on, and otherwise the curve value saturated to [0,1]. -/
theorem getPowerFactor_equal_flags (e : PistonEngine) (mixture airDensity : ℚ)
    (fuel ignition : Bool) :
    e.getPowerFactor mixture airDensity fuel ignition ignition
      = if fuel = true ∧ ignition = true then
          Misc.satur 0 1 (e.powerFactor.getValue (mixture * (1.225 / airDensity) * 0.1))
        else 0 := by
  cases fuel <;> cases ignition <;> simp [getPowerFactor, Misc.satur]

/-- C18. `C172_Propulsion::update` passes the single ignition input as both
magneto flags of the engine update; with equal flags the one-magneto reduction by
0.95 is never applied: the power factor is 0 when ignition or fuel is off and
otherwise the power-factor curve value saturated to [0,1], and this is the factor
in the net power the engine stores. -/
theorem C18_single_ignition {P : Type} (ops : PropellerOps P) (aircraft : C172_Aircraft)
    (s : C172_Propulsion P) :
    (s.update ops aircraft).engine
      = s.engine.update aircraft.engine0.throttle aircraft.engine0.mixture
          (ops.getEngineRPM (ops.integrate s.propeller aircraft.timeStep s.engine.inertia))
          aircraft.pressure aircraft.density
          aircraft.engine0.fuel aircraft.engine0.starter
          aircraft.engine0.ignition aircraft.engine0.ignition
    ∧ (∀ mixture airDensity : ℚ,
        s.engine.getPowerFactor mixture airDensity
            aircraft.engine0.fuel aircraft.engine0.ignition aircraft.engine0.ignition
          = if aircraft.engine0.fuel = true ∧ aircraft.engine0.ignition = true then
              Misc.satur 0 1
                (s.engine.powerFactor.getValue (mixture * (1.225 / airDensity) * 0.1))
            else 0)
    ∧ (s.update ops aircraft).engine.power
      = (if ops.getEngineRPM (ops.integrate s.propeller aircraft.timeStep s.engine.inertia)
              < s.engine.rpm_min then 0
          else s.engine.getStaticPower
              (ops.getEngineRPM (ops.integrate s.propeller aircraft.timeStep s.engine.inertia))
              (getManifoldAbsolutePressure
                (s.engine.throttle.getValue aircraft.engine0.throttle)
                (ops.getEngineRPM
                  (ops.integrate s.propeller aircraft.timeStep s.engine.inertia))
                aircraft.pressure)
            * (if aircraft.engine0.fuel = true ∧ aircraft.engine0.ignition = true then
                Misc.satur 0 1
                  (s.engine.powerFactor.getValue
                    (s.engine.mixture.getValue aircraft.engine0.mixture
                      * (1.225 / aircraft.density) * 0.1))
              else 0))
        - s.engine.getPowerLosses
            (ops.getEngineRPM
              (ops.integrate s.propeller aircraft.timeStep s.engine.inertia)) := by
  have he : (s.update ops aircraft).engine
      = s.engine.update aircraft.engine0.throttle aircraft.engine0.mixture
          (ops.getEngineRPM (ops.integrate s.propeller aircraft.timeStep s.engine.inertia))
          aircraft.pressure aircraft.density
          aircraft.engine0.fuel aircraft.engine0.starter
          aircraft.engine0.ignition aircraft.engine0.ignition := rfl
  refine ⟨he, ?_, ?_⟩
  · intro mixture airDensity
    exact getPowerFactor_equal_flags _ _ _ _ _
  · rw [he, update_power, getPowerFactor_equal_flags]

/-! ## No rolling moment from the propulsion (C19) -/

/-- C19. For every propeller, engine inertia and aircraft angular rate, the x
(roll) component of the moment stored by `computeForceAndMoment` is 0, and the y
and z components of the stored force are 0. -/
theorem C19_no_roll_moment {P : Type} (ops : PropellerOps P) (isValid : Vector3 → Bool)
    (aircraft : C172_Aircraft) (s : C172_Propulsion P) :
    (s.computeForceAndMoment ops isValid aircraft).1.mom_bas.x = 0
    ∧ (s.computeForceAndMoment ops isValid aircraft).1.for_bas.y = 0
    ∧ (s.computeForceAndMoment ops isValid aircraft).1.for_bas.z = 0 := by
  unfold C172_Propulsion.computeForceAndMoment
  by_cases hd : ops.getDirection
      (ops.computeThrust s.propeller aircraft.airspeed aircraft.density) = Direction.CW
  · simp only [hd, if_true]
    split_ifs <;> simp [Vector3.add, Vector3.scale, Vector3.cross, Vector3.zero]
  · simp only [hd, if_false]
    split_ifs <;> simp [Vector3.add, Vector3.scale, Vector3.cross, Vector3.zero]

/-! ## Both magnetos off (C20) -/

/-- C20. For every engine and every input to `update` with both magnetos off,
whatever the fuel, starter, rpm, throttle and mixture inputs are: the net power is
≤ 0, the fuel flow is 0, and the state is not Running: it is Starting if the
starter is engaged and Stopped otherwise. -/
theorem C20_magnetos_off (e : PistonEngine)
    (throttleLever mixtureLever rpm airPressure airDensity : ℚ) (fuel starter : Bool) :
    (e.update throttleLever mixtureLever rpm airPressure airDensity
        fuel starter false false).power ≤ 0
    ∧ (e.update throttleLever mixtureLever rpm airPressure airDensity
        fuel starter false false).fuelFlow = 0
    ∧ (e.update throttleLever mixtureLever rpm airPressure airDensity
        fuel starter false false).state ≠ EngineState.Running
    ∧ (e.update throttleLever mixtureLever rpm airPressure airDensity
        fuel starter false false).state
      = if starter = true then EngineState.Starting else EngineState.Stopped := by
  have hp : (e.update throttleLever mixtureLever rpm airPressure airDensity
      fuel starter false false).power = -e.getPowerLosses rpm := by
    rw [update_power, getPowerFactor_equal_flags]
    simp
  have hle : (e.update throttleLever mixtureLever rpm airPressure airDensity
      fuel starter false false).power ≤ 0 := by
    rw [hp]
    exact neg_nonpos.mpr (getPowerLosses_nonneg e rpm)
  have hc : ¬ runningCond (e.update throttleLever mixtureLever rpm airPressure airDensity
      fuel starter false false).power rpm e.rpm_min fuel false false := by
    unfold runningCond
    simp [not_lt.mpr hle]
  have hs : (e.update throttleLever mixtureLever rpm airPressure airDensity
      fuel starter false false).state
      = if starter = true then EngineState.Starting else EngineState.Stopped := by
    rw [update_state, if_neg hc]
  refine ⟨hle, ?_, ?_, hs⟩
  · rw [update_fuelFlow, Misc_max_eq, max_eq_left hle, zero_mul]
  · rw [hs]
    cases starter <;> simp
